import Mathlib

/-!
Shallow embedding of the POV-Nexus-1000-Scenes generation core:
the scene data model (`src/types.ts`), the fixed constants
(`src/constants.ts`), the two content-source backends
(`src/services/geminiService.ts`), and the batch-generation loop,
handlers and view projection of the application container
(`src/App.tsx`, with the variant bulk thumbnail loader of
`src/unnamed/part_001`).

Remote calls are modelled by passing the environment's behaviour
(API-key availability, the structured response the remote service
produces, whether the user pressed Stop while a request was in
flight) as explicit parameters; `Math.random()` draws are modelled
by an explicit stream `rng : Nat → Nat`, reduced modulo the sampled
list's length exactly where the source computes
`Math.floor(Math.random() * list.length)`.
-/

namespace PovNexus

/-- Scene record, from `SceneConcept` in `src/types.ts`.  Optional
fields of the TypeScript interface become `Option`/defaulted fields;
the transient booleans default to `false` as an absent JS field is
falsy. -/
structure SceneConcept where
  id : Nat
  description : String
  category : String
  lighting : String
  camera : String
  thumbnailUrl : Option String := none
  isGeneratingThumbnail : Bool := false
  highResUrl : Option String := none
  isGeneratingHighRes : Bool := false
  isFavorite : Bool := false
  deriving Repr, DecidableEq

/-- Progress statistics, from `GenerationStats` in `src/types.ts`.
Timestamps are abstract naturals. -/
structure GenerationStats where
  totalGenerated : Nat
  batchesCompleted : Nat
  isGenerating : Bool
  startTime : Option Nat
  elapsedTime : Nat
  deriving Repr, DecidableEq

/-- `BATCH_SIZE` in `src/constants.ts`: scenes requested per API call. -/
def BATCH_SIZE : Nat := 50

/-- `TOTAL_GOAL` in `src/constants.ts`: target total number of scenes. -/
def TOTAL_GOAL : Nat := 1000

/-- `ITEMS_PER_PAGE` in `src/App.tsx`. -/
def ITEMS_PER_PAGE : Nat := 10

/-- One element of the parsed structured response of the remote text
backend: the four required string fields of `sceneSchema` in
`src/services/geminiService.ts` (a `SceneConcept` without an `id`). -/
structure ParsedScene where
  description : String
  category : String
  lighting : String
  camera : String
  deriving Repr, DecidableEq

/-- What the remote text call can hand back to `generateSceneBatch`
after `await freshAi.models.generateContent(...)` succeeds:
`response.text` may be null/empty (`noText`), non-empty but not valid
JSON (`malformed`, making `JSON.parse` throw), or valid JSON parsing
to a list of schema items. -/
inductive BatchResponse where
  | noText : BatchResponse
  | malformed : BatchResponse
  | parsed : List ParsedScene → BatchResponse
  deriving Repr, DecidableEq

/-- Failure modes a caller of the service layer can observe as a
thrown exception. -/
inductive GenError where
  | missingKey : GenError
  | apiError : GenError
  | parseError : GenError
  deriving Repr, DecidableEq

/-- The id-assignment step of `generateSceneBatch`:
`parsedData.map((item, index) => ({ ...item, id: startId + index }))` —
the i-th returned item receives id `startId + i`. -/
def assignIds (startId : Nat) : List ParsedScene → List SceneConcept
  | [] => []
  | item :: rest =>
      { id := startId
        description := item.description
        category := item.category
        lighting := item.lighting
        camera := item.camera } :: assignIds (startId + 1) rest

/-- `generateSceneBatch` in `src/services/geminiService.ts`.
`count` and `targetCategories` only shape the natural-language prompt,
so only `count` is kept (unused by the control flow).  The source:
missing API key throws before any work; a rejected remote call is
logged and rethrown; a null/empty `response.text` returns `[]`;
`JSON.parse` of malformed text throws inside the `try`, and the
`catch` rethrows; a parsed array is mapped to records with ids
`startId + index`. -/
def generateSceneBatch (hasApiKey : Bool) (startId : Nat) (count : Nat)
    (response : Except Unit BatchResponse) : Except GenError (List SceneConcept) :=
  let _ := count
  if !hasApiKey then .error .missingKey
  else
    match response with
    | .error _ => .error .apiError
    | .ok .noText => .ok []
    | .ok .malformed => .error .parseError
    | .ok (.parsed parsedData) => .ok (assignIds startId parsedData)

/-- `PROMPT_COMPONENTS.moods` in `src/constants.ts`. -/
def moods : List String :=
  ["peaceful", "dreamlike", "heroic", "enigmatic", "surreal",
   "mysterious", "tense", "melancholic", "awe-inspiring", "epic",
   "electric", "hazy"]

/-- `PROMPT_COMPONENTS.locations` in `src/constants.ts`. -/
def locations : List String :=
  ["floating sky temple", "rainy city street", "haunted library",
   "crystal desert", "volcanic cliffs", "futuristic lab",
   "abandoned starship corridor", "neon-lit alley", "underwater reef",
   "desert battlefield", "orbital station window", "ancient ruins",
   "misty forest", "glowing cave", "stormy ocean deck",
   "dense jungle", "cosmic nebula", "snowy mountain pass",
   "holographic market", "bioluminescent bay"]

/-- `PROMPT_COMPONENTS.actions` in `src/constants.ts`. -/
def actions : List String :=
  ["shielding from bright energy", "diving deeper into darkness",
   "touching ancient symbols", "navigating collapsing terrain",
   "climbing a massive structure", "observing distant lights",
   "holding a futuristic device", "running from unseen danger",
   "opening a mysterious door", "stepping through a portal",
   "approaching a towering creature", "floating in zero gravity",
   "reaching toward a glowing object", "emerging from thick fog",
   "exploring an unknown world"]

/-- `PROMPT_COMPONENTS.styles` in `src/constants.ts`. -/
def styles : List String :=
  ["Van Gogh x Cyberpunk", "Klimt x Sci-Fi", "Rembrandt x Noir",
   "Synthwave x Ukiyo-e", "Bauhaus x Industrial", "Gothic x Neon",
   "Abstract Expressionism x Space", "Art Deco x Future"]

/-- The `lightingOptions` local array of `generateCuratedBatch`. -/
def lightingOptions : List String :=
  ["Neon", "Bioluminescent", "Volumetric", "Dusk", "Cinematic"]

/-- `LOCATION_CATEGORY_MAP` in `src/constants.ts`, as an association
list (key order as in the source object literal). -/
def LOCATION_CATEGORY_MAP : List (String × String) :=
  [("floating sky temple", "Fantasy"),
   ("rainy city street", "Urban Life"),
   ("haunted library", "Horror"),
   ("crystal desert", "Surreal"),
   ("volcanic cliffs", "Adventure"),
   ("futuristic lab", "Sci-Fi"),
   ("abandoned starship corridor", "Sci-Fi"),
   ("neon-lit alley", "Neon"),
   ("underwater reef", "Underwater"),
   ("desert battlefield", "Military"),
   ("orbital station window", "Space"),
   ("ancient ruins", "Historical"),
   ("misty forest", "Nature"),
   ("glowing cave", "Nature"),
   ("stormy ocean deck", "Adventure"),
   ("dense jungle", "Nature"),
   ("cosmic nebula", "Space"),
   ("snowy mountain pass", "Nature"),
   ("holographic market", "Cyberpunk"),
   ("bioluminescent bay", "Neon")]

/-- Property access `LOCATION_CATEGORY_MAP[location]` — `none` models
JS `undefined` for an unmapped location. -/
def lookupCategory (location : String) : Option String :=
  (LOCATION_CATEGORY_MAP.find? (fun p => p.1 = location)).map (·.2)

/-- The placeholder thumbnail URL of `generateCuratedBatch`:
`https://picsum.photos/seed/SEED/400/225` for `seed = startId + i`,
which equals the record's id. -/
def placeholderUrl (seed : Nat) : String :=
  "https://picsum.photos/seed/" ++ toString seed ++ "/400/225"

/-- `generateCuratedBatch` in `src/services/geminiService.ts`.  The
source loop pushes, for `i` in `0..count-1`, a record sampled with
five `Math.floor(Math.random() * len)` draws (mood, location, action,
style, lighting).  The draws are modelled by the stream `rng`: the
j-th draw of iteration `i` is `rng (5*i+j) % len`, which ranges over
exactly the indices `Math.floor(Math.random() * len)` can produce. -/
def generateCuratedBatch (rng : Nat → Nat) (startId : Nat) (count : Nat) :
    List SceneConcept :=
  (List.range count).map fun i =>
    let mood := moods.getD (rng (5 * i) % moods.length) ""
    let location := locations.getD (rng (5 * i + 1) % locations.length) ""
    let action := actions.getD (rng (5 * i + 2) % actions.length) ""
    let style := styles.getD (rng (5 * i + 3) % styles.length) ""
    let category := (lookupCategory location).getD "General"
    let description :=
      "POV in a " ++ mood ++ " scene set in " ++ location ++ ", " ++
        action ++ ". Style: " ++ style ++ "."
    let lighting := lightingOptions.getD (rng (5 * i + 4) % lightingOptions.length) ""
    let seed := startId + i
    { id := startId + i
      description := description
      category := category
      lighting := lighting
      camera := "First-Person POV"
      thumbnailUrl := some (placeholderUrl seed) }

/-- The state of the `App` container relevant to the generation loop:
the `scenes` array, the `stats` object and the `stopRef` cancellation
ref (`src/App.tsx`). -/
structure AppState where
  scenes : List SceneConcept
  stats : GenerationStats
  stopRef : Bool
  deriving Repr, DecidableEq

/-- `handleStop` in `src/App.tsx`: raise the cancellation ref and
clear the running flag. -/
def handleStop (s : AppState) : AppState :=
  { s with stopRef := true, stats := { s.stats with isGenerating := false } }

/-- `handleStart` in `src/App.tsx`.  With no selected API key the
handler only prompts key selection and returns, changing none of this
state.  Otherwise it clears `stopRef` and flags the loop active,
resetting the counters, start time and elapsed time only when the
collection is empty (fresh run), not on resume. -/
def handleStart (hasApiKey : Bool) (now : Nat) (s : AppState) : AppState :=
  if !hasApiKey then s
  else
    { s with
      stopRef := false
      stats :=
        if s.scenes.length = 0 then
          { s.stats with
            isGenerating := true, startTime := some now,
            totalGenerated := 0, batchesCompleted := 0, elapsedTime := 0 }
        else { s.stats with isGenerating := true } }

/-- The synchronous pre-`await` part of `generateStep` in
`src/App.tsx`: if the loop is inactive, cancelled, or the goal is
reached, no batch is requested (flipping `isGenerating` off exactly
when the goal was reached while still flagged active); otherwise a
batch of `min BATCH_SIZE (TOTAL_GOAL - currentCount)` records is
requested, numbered from `currentCount + 1`.  Returns the state after
this part together with `some (startId, nextBatchSize)` when a
request was issued. -/
def generateStepIssue (s : AppState) : AppState × Option (Nat × Nat) :=
  if !s.stats.isGenerating || s.stopRef || decide (s.scenes.length ≥ TOTAL_GOAL) then
    if decide (s.scenes.length ≥ TOTAL_GOAL) && s.stats.isGenerating then
      ({ s with stats := { s.stats with isGenerating := false } }, none)
    else (s, none)
  else
    (s, some (s.scenes.length + 1, min BATCH_SIZE (TOTAL_GOAL - s.scenes.length)))

/-- The post-`await` part of `generateStep`: `r` is the outcome of the
awaited `generateSceneBatch` call and `s` the state at resolution
time (a `handleStop` may have run during the `await`).  On success
the batch is appended and the counters incremented only when
`stopRef` is still unset (`if (isMounted && !stopRef.current)` with
`isMounted` true); a rejected call raises the cancellation ref and
clears the running flag. -/
def generateStepResolve (s : AppState) (r : Except GenError (List SceneConcept)) :
    AppState :=
  match r with
  | .ok newBatch =>
      if !s.stopRef then
        { s with
          scenes := s.scenes ++ newBatch
          stats :=
            { s.stats with
              totalGenerated := s.stats.totalGenerated + newBatch.length
              batchesCompleted := s.stats.batchesCompleted + 1 } }
      else s
  | .error _ =>
      { s with stopRef := true, stats := { s.stats with isGenerating := false } }

/-- Environment of one `generateStep` execution: whether an API key is
selected, the remote response the in-flight call will produce, and
whether the user presses Stop while the request is in flight. -/
structure BatchEnv where
  hasApiKey : Bool
  response : Except Unit BatchResponse
  stopDuringFlight : Bool
  deriving Repr

/-- One full execution of `generateStep` against environment `env`:
the pre-`await` check, then — when a request was issued — the awaited
`generateSceneBatch` call, with `handleStop` interleaved during the
`await` when `env.stopDuringFlight` is set, and finally the
post-`await` commit. -/
def generateStepRun (s : AppState) (env : BatchEnv) : AppState :=
  match generateStepIssue s with
  | (s1, none) => s1
  | (s1, some (startId, nextBatchSize)) =>
      let sMid := if env.stopDuringFlight then handleStop s1 else s1
      generateStepResolve sMid
        (generateSceneBatch env.hasApiKey startId nextBatchSize env.response)

/-- A run of the effect-driven loop: `generateStep` executions chained
over a list of per-step environments. -/
def runLoop (s : AppState) : List BatchEnv → AppState
  | [] => s
  | env :: envs => runLoop (generateStepRun s env) envs

/-- `handleInstantLoad` in `src/App.tsx`: raises `stopRef`, replaces
the whole collection with `generateCuratedBatch(1, TOTAL_GOAL)` and
overwrites the stats (`Math.ceil` on naturals is
`(n + BATCH_SIZE - 1) / BATCH_SIZE`). -/
def handleInstantLoad (rng : Nat → Nat) (now : Nat) (s : AppState) : AppState :=
  let _ := s
  let curatedScenes := generateCuratedBatch rng 1 TOTAL_GOAL
  { scenes := curatedScenes
    stats :=
      { totalGenerated := curatedScenes.length
        batchesCompleted := (curatedScenes.length + BATCH_SIZE - 1) / BATCH_SIZE
        isGenerating := false
        startTime := some now
        elapsedTime := 1 }
    stopRef := true }

/-- `handleToggleFavorite` in `src/App.tsx`: flip `isFavorite` on
every record whose id matches, via an immutable map. -/
def handleToggleFavorite (id : Nat) (scenes : List SceneConcept) :
    List SceneConcept :=
  scenes.map fun s => if s.id = id then { s with isFavorite := !s.isFavorite } else s

/-- The synchronous pre-`await` part of `handleGenerateImage` in
`src/App.tsx` for record `id`: with no API key (and the key-selection
prompt not yielding one) nothing happens and no request is issued;
otherwise `isGeneratingThumbnail` is set on the record and a
thumbnail request is issued — there is no check of the record's
current `isGeneratingThumbnail` state.  Returns the updated scenes
and whether a request was issued. -/
def handleGenerateImageIssue (hasApiKey : Bool) (id : Nat)
    (scenes : List SceneConcept) : List SceneConcept × Bool :=
  if !hasApiKey then (scenes, false)
  else
    (scenes.map fun s =>
      if s.id = id then { s with isGeneratingThumbnail := true } else s, true)

/-- The post-`await` part of `handleGenerateImage`: a non-null image
URL clears the pending flag and stores the URL; a null result or a
thrown failure clears the pending flag (the `catch` path, reached
also via `throw new Error("No image data")` on null). -/
def handleGenerateImageResolve (id : Nat) (result : Except Unit (Option String))
    (scenes : List SceneConcept) : List SceneConcept :=
  match result with
  | .ok (some imageUrl) =>
      scenes.map fun s =>
        if s.id = id then
          { s with isGeneratingThumbnail := false, thumbnailUrl := some imageUrl }
        else s
  | _ =>
      scenes.map fun s =>
        if s.id = id then { s with isGeneratingThumbnail := false } else s

/-- JS `Array.prototype.slice(a, b)` on a list (for `0 ≤ a ≤ b`). -/
def sliceJs (l : List SceneConcept) (a b : Nat) : List SceneConcept :=
  (l.drop a).take (b - a)

/-- The `filteredScenes` view of `src/App.tsx`: favorites-only when
the toggle is on, everything otherwise, in original order. -/
def filteredScenes (showFavorites : Bool) (scenes : List SceneConcept) :
    List SceneConcept :=
  if showFavorites then scenes.filter (·.isFavorite) else scenes

/-- `totalPages` in `src/App.tsx`:
`Math.ceil(filteredScenes.length / ITEMS_PER_PAGE)`, which on a
natural length is `(L + ITEMS_PER_PAGE - 1) / ITEMS_PER_PAGE`. -/
def totalPages (L : Nat) : Nat := (L + ITEMS_PER_PAGE - 1) / ITEMS_PER_PAGE

/-- `displayedScenes` in `src/App.tsx`: the slice of the filtered
collection from `(currentPage - 1) * ITEMS_PER_PAGE` to
`currentPage * ITEMS_PER_PAGE`. -/
def displayedScenes (filtered : List SceneConcept) (currentPage : Nat) :
    List SceneConcept :=
  sliceJs filtered ((currentPage - 1) * ITEMS_PER_PAGE) (currentPage * ITEMS_PER_PAGE)

/-- The characters of the substring tested by
`thumbnailUrl.includes('picsum')`. -/
def picsumChars : List Char :=
  ['p', 'i', 'c', 's', 'u', 'm']

/-- JS `String.prototype.includes('picsum')` on a character list:
`picsum` occurs as a contiguous substring. -/
def strContainsPicsum : List Char → Bool
  | [] => false
  | c :: rest => picsumChars.isPrefixOf (c :: rest) || strContainsPicsum rest

/-- The record-selection filter of `handleGeneratePageThumbnails` in
`src/unnamed/part_001` (the variant bulk loader): keep records whose
thumbnail is missing or a picsum placeholder AND that are not already
generating. -/
def scenesToLoad (displayed : List SceneConcept) : List SceneConcept :=
  displayed.filter fun s =>
    (s.thumbnailUrl.isNone || strContainsPicsum (s.thumbnailUrl.getD "").data) &&
    !s.isGeneratingThumbnail

/-- Number of schema items the environment's response parses to
(zero for a missing/empty text, a parse failure or a rejected call). -/
def respItemCount (e : BatchEnv) : Nat :=
  match e.response with
  | .ok (.parsed items) => items.length
  | _ => 0

/-- The environment returns no more items than the step requests:
whenever `generateStep` issues a request of `nextBatchSize` records
on state `s`, the response parses to at most `nextBatchSize` items. -/
def envOk (s : AppState) (e : BatchEnv) : Bool :=
  match (generateStepIssue s).2 with
  | none => true
  | some (_, nextBatchSize) => decide (respItemCount e ≤ nextBatchSize)

/-- `envOk` holds along a whole run. -/
def runOk (s : AppState) : List BatchEnv → Bool
  | [] => true
  | e :: es => envOk s e && runOk (generateStepRun s e) es

/-- A parsed schema item used in concrete executions. -/
def sampleItem : ParsedScene :=
  { description := "d", category := "c", lighting := "l", camera := "p" }

/-- An empty collection with the loop active: the state right after
`handleStart` on a fresh session. -/
def activeEmptyState : AppState :=
  { scenes := []
    stats :=
      { totalGenerated := 0, batchesCompleted := 0, isGenerating := true,
        startTime := some 0, elapsedTime := 0 }
    stopRef := false }

/-- Environment in which the batch call succeeds with two items and
the user presses Stop while the call is in flight. -/
def stopMidFlightEnv : BatchEnv :=
  { hasApiKey := true
    response := .ok (.parsed [sampleItem, sampleItem])
    stopDuringFlight := true }

/-- Environment whose successful response carries 1001 items — more
than any single step requests. -/
def oversizedEnv : BatchEnv :=
  { hasApiKey := true
    response := .ok (.parsed (List.replicate 1001 sampleItem))
    stopDuringFlight := false }

/-- A record whose thumbnail request is already pending. -/
def pendingScene : SceneConcept :=
  { id := 1, description := "d", category := "c", lighting := "l",
    camera := "p", isGeneratingThumbnail := true }

/-- A record whose id (2000) lies outside the id range the curated
generator can produce. -/
def outsideScene : SceneConcept :=
  { id := 2000, description := "keep me", category := "c", lighting := "l",
    camera := "p" }

/-- A non-empty idle collection holding only `outsideScene`. -/
def idleOutsideState : AppState :=
  { scenes := [outsideScene]
    stats :=
      { totalGenerated := 1, batchesCompleted := 1, isGenerating := false,
        startTime := some 0, elapsedTime := 3 }
    stopRef := true }

/-- The record `generateCuratedBatch (fun _ => 0) 1 1` produces: every
draw picks index 0 of its list. -/
def curatedSample : SceneConcept :=
  { id := 1
    description :=
      "POV in a peaceful scene set in floating sky temple, shielding from bright energy. Style: Van Gogh x Cyberpunk."
    category := "Fantasy"
    lighting := "Neon"
    camera := "First-Person POV"
    thumbnailUrl := some "https://picsum.photos/seed/1/400/225" }

/-- Ten records with ids 1..10, the ones with id 2, 5, 9 favorited. -/
def favSample : List SceneConcept :=
  (List.range' 1 10).map fun n =>
    { id := n, description := "d", category := "c", lighting := "l",
      camera := "p", isFavorite := n = 2 || n = 5 || n = 9 }

/-- The first record of `favSample` (id 1, not favorited). -/
def favSampleHead : SceneConcept :=
  { id := 1, description := "d", category := "c", lighting := "l",
    camera := "p", isFavorite := false }

/-- The fifth record of `favSample` (id 5, favorited). -/
def favSampleFive : SceneConcept :=
  { id := 5, description := "d", category := "c", lighting := "l",
    camera := "p", isFavorite := true }

/-! Helper lemmas about the embedded operations. -/

theorem length_assignIds (startId : Nat) (items : List ParsedScene) :
    (assignIds startId items).length = items.length := by
  induction items generalizing startId with
  | nil => rfl
  | cons a l ih => simp [assignIds, ih]

theorem map_id_assignIds (startId : Nat) (items : List ParsedScene) :
    (assignIds startId items).map SceneConcept.id =
      List.range' startId items.length := by
  induction items generalizing startId with
  | nil => rfl
  | cons a l ih =>
      simp only [assignIds, List.map_cons, List.length_cons, List.range'_succ, ih]

theorem generateStepIssue_spec (s : AppState) :
    generateStepIssue s =
      if s.stats.isGenerating = true ∧ s.stopRef = false ∧
          s.scenes.length < TOTAL_GOAL then
        (s, some (s.scenes.length + 1, min BATCH_SIZE (TOTAL_GOAL - s.scenes.length)))
      else if TOTAL_GOAL ≤ s.scenes.length ∧ s.stats.isGenerating = true then
        ({ s with stats := { s.stats with isGenerating := false } }, none)
      else (s, none) := by
  rcases hgen : s.stats.isGenerating <;> rcases hstop : s.stopRef <;>
    by_cases hgoal : TOTAL_GOAL ≤ s.scenes.length <;>
      simp [generateStepIssue, hgen, hstop, hgoal] <;>
        first | rw [if_neg (by omega)] | rw [if_pos (by omega)]

theorem generateStepIssue_fst (s : AppState) :
    (generateStepIssue s).1 = s ∨
      (generateStepIssue s).1 =
        { s with stats := { s.stats with isGenerating := false } } := by
  rw [generateStepIssue_spec]
  split_ifs <;> simp

theorem generateStepIssue_fst_scenes (s : AppState) :
    (generateStepIssue s).1.scenes = s.scenes := by
  rcases generateStepIssue_fst s with h | h <;> rw [h]

theorem generateStepIssue_fst_totalGenerated (s : AppState) :
    (generateStepIssue s).1.stats.totalGenerated = s.stats.totalGenerated := by
  rcases generateStepIssue_fst s with h | h <;> rw [h]

theorem generateStepIssue_fst_batchesCompleted (s : AppState) :
    (generateStepIssue s).1.stats.batchesCompleted = s.stats.batchesCompleted := by
  rcases generateStepIssue_fst s with h | h <;> rw [h]

theorem generateStepIssue_pair_some (s s1 : AppState) (a b : Nat)
    (h : generateStepIssue s = (s1, some (a, b))) :
    s1 = s ∧ a = s.scenes.length + 1 ∧
      b = min BATCH_SIZE (TOTAL_GOAL - s.scenes.length) ∧
      s.stopRef = false ∧ s.stats.isGenerating = true ∧
      s.scenes.length < TOTAL_GOAL := by
  rw [generateStepIssue_spec] at h
  split_ifs at h with h1 h2 <;> simp [Prod.ext_iff] at h
  exact ⟨h.1.symm, h.2.1.symm, h.2.2.symm, h1.2.1, h1.1, h1.2.2⟩

theorem generateStepIssue_stopRef_none (s : AppState) (h : s.stopRef = true) :
    (generateStepIssue s).2 = none := by
  rw [generateStepIssue_spec]
  split_ifs with h1 h2 <;> simp_all

theorem generateStepIssue_goal_none (s : AppState)
    (h : TOTAL_GOAL ≤ s.scenes.length) :
    (generateStepIssue s).2 = none := by
  rw [generateStepIssue_spec]
  split_ifs with h1 h2 <;> first | omega | rfl

theorem generateStepResolve_scenes_append (s : AppState)
    (r : Except GenError (List SceneConcept)) :
    ∃ t, (generateStepResolve s r).scenes = s.scenes ++ t := by
  cases r with
  | ok newBatch =>
      simp only [generateStepResolve]
      split_ifs with h
      · exact ⟨newBatch, rfl⟩
      · exact ⟨[], (List.append_nil _).symm⟩
  | error e =>
      exact ⟨[], (List.append_nil _).symm⟩

theorem handleStop_scenes (s : AppState) : (handleStop s).scenes = s.scenes := rfl

theorem handleStop_stopRef (s : AppState) : (handleStop s).stopRef = true := rfl

theorem generateStepRun_cases (s : AppState) (e : BatchEnv) :
    ((generateStepRun s e).scenes = s.scenes ∧
      (generateStepRun s e).stats.totalGenerated = s.stats.totalGenerated ∧
      (generateStepRun s e).stats.batchesCompleted = s.stats.batchesCompleted)
    ∨ (s.scenes.length < TOTAL_GOAL ∧
        (generateStepIssue s).2 =
          some (s.scenes.length + 1, min BATCH_SIZE (TOTAL_GOAL - s.scenes.length)) ∧
        ∃ items : List ParsedScene,
          items.length = respItemCount e ∧
          (generateStepRun s e).scenes =
            s.scenes ++ assignIds (s.scenes.length + 1) items ∧
          (generateStepRun s e).stats.totalGenerated =
            s.stats.totalGenerated + items.length ∧
          (generateStepRun s e).stats.batchesCompleted =
            s.stats.batchesCompleted + 1) := by
  rcases hiss : generateStepIssue s with ⟨s1, o⟩
  rcases o with _ | ⟨a, b⟩
  · left
    have h1 : s1.scenes = s.scenes := by
      rw [← generateStepIssue_fst_scenes s, hiss]
    have h2 : s1.stats.totalGenerated = s.stats.totalGenerated := by
      rw [← generateStepIssue_fst_totalGenerated s, hiss]
    have h3 : s1.stats.batchesCompleted = s.stats.batchesCompleted := by
      rw [← generateStepIssue_fst_batchesCompleted s, hiss]
    simp [generateStepRun, hiss, h1, h2, h3]
  · obtain ⟨hs1, ha, hb, hstop, hgen, hlen⟩ :=
      generateStepIssue_pair_some s s1 a b hiss
    subst hs1 ha hb
    rcases hkey : e.hasApiKey
    · left
      simp [generateStepRun, hiss, generateSceneBatch, hkey, generateStepResolve,
        handleStop]
      rcases e.stopDuringFlight <;> simp
    · rcases hsdf : e.stopDuringFlight
      · rcases hresp : e.response with u | br
        · left
          simp [generateStepRun, hiss, generateSceneBatch, hkey, hresp, hsdf,
            generateStepResolve]
        · rcases br with _ | _ | items
          · right
            refine ⟨hlen, by simp [hiss], [], by simp [respItemCount, hresp], ?_⟩
            simp [generateStepRun, hiss, generateSceneBatch, hkey, hresp, hsdf,
              generateStepResolve, hstop, assignIds]
          · left
            simp [generateStepRun, hiss, generateSceneBatch, hkey, hresp, hsdf,
              generateStepResolve]
          · right
            refine ⟨hlen, by simp [hiss], items, by simp [respItemCount, hresp], ?_⟩
            simp [generateStepRun, hiss, generateSceneBatch, hkey, hresp, hsdf,
              generateStepResolve, hstop, length_assignIds]
      · left
        rcases hresp : e.response with u | br
        · simp [generateStepRun, hiss, generateSceneBatch, hkey, hresp, hsdf,
            generateStepResolve, handleStop]
        · rcases br with _ | _ | items <;>
            simp [generateStepRun, hiss, generateSceneBatch, hkey, hresp, hsdf,
              generateStepResolve, handleStop]

theorem generateStepIssue_snd_some (s : AppState) (a b : Nat)
    (h : (generateStepIssue s).2 = some (a, b)) :
    a = s.scenes.length + 1 ∧
      b = min BATCH_SIZE (TOTAL_GOAL - s.scenes.length) := by
  rw [generateStepIssue_spec] at h
  split_ifs at h
  simp at h
  exact ⟨h.1.symm, h.2.symm⟩

theorem generateStepResolve_stopped (s : AppState)
    (r : Except GenError (List SceneConcept)) (h : s.stopRef = true) :
    (generateStepResolve s r).scenes = s.scenes ∧
    (generateStepResolve s r).stats.totalGenerated = s.stats.totalGenerated ∧
    (generateStepResolve s r).stats.batchesCompleted = s.stats.batchesCompleted ∧
    (generateStepResolve s r).stopRef = true := by
  cases r with
  | ok l => simp [generateStepResolve, h]
  | error e => simp [generateStepResolve, h]

theorem generateStepRun_scenes_append (s : AppState) (e : BatchEnv) :
    ∃ t, (generateStepRun s e).scenes = s.scenes ++ t := by
  rcases generateStepRun_cases s e with ⟨h, -, -⟩ | ⟨-, -, items, -, h, -, -⟩
  · exact ⟨[], by simp [h]⟩
  · exact ⟨_, h⟩

theorem runLoop_scenes_append (s : AppState) (es : List BatchEnv) :
    ∃ t, (runLoop s es).scenes = s.scenes ++ t := by
  induction es generalizing s with
  | nil => exact ⟨[], (List.append_nil _).symm⟩
  | cons e es ih =>
      obtain ⟨t2, h2⟩ := ih (generateStepRun s e)
      obtain ⟨t1, h1⟩ := generateStepRun_scenes_append s e
      exact ⟨t1 ++ t2, by simp [runLoop, h2, h1]⟩

theorem generateStepRun_length_le (s : AppState) (e : BatchEnv)
    (hlen : s.scenes.length ≤ TOTAL_GOAL) (henv : envOk s e = true) :
    (generateStepRun s e).scenes.length ≤ TOTAL_GOAL := by
  rcases generateStepRun_cases s e with ⟨h, -, -⟩ | ⟨hl, hiss, items, hcount, h, -, -⟩
  · rw [h]; exact hlen
  · have henv' : respItemCount e ≤ min BATCH_SIZE (TOTAL_GOAL - s.scenes.length) := by
      simpa [envOk, hiss] using henv
    rw [h, List.length_append, length_assignIds]
    omega

theorem runLoop_length_le (s : AppState) (es : List BatchEnv)
    (hlen : s.scenes.length ≤ TOTAL_GOAL) (hok : runOk s es = true) :
    (runLoop s es).scenes.length ≤ TOTAL_GOAL := by
  induction es generalizing s with
  | nil => exact hlen
  | cons e es ih =>
      simp only [runOk, Bool.and_eq_true] at hok
      exact ih (generateStepRun s e) (generateStepRun_length_le s e hlen hok.1) hok.2

theorem generateStepRun_ids (s : AppState) (e : BatchEnv)
    (h : s.scenes.map SceneConcept.id = List.range' 1 s.scenes.length) :
    (generateStepRun s e).scenes.map SceneConcept.id =
      List.range' 1 (generateStepRun s e).scenes.length := by
  rcases generateStepRun_cases s e with ⟨hs, -, -⟩ | ⟨-, -, items, -, hs, -, -⟩
  · rw [hs]; exact h
  · rw [hs, List.map_append, map_id_assignIds, h, List.length_append,
      length_assignIds]
    have := List.range'_append_1 1 s.scenes.length items.length
    rw [Nat.add_comm 1 s.scenes.length] at this
    rw [Nat.add_comm items.length s.scenes.length] at this
    exact this

theorem runLoop_ids (s : AppState) (es : List BatchEnv)
    (h : s.scenes.map SceneConcept.id = List.range' 1 s.scenes.length) :
    (runLoop s es).scenes.map SceneConcept.id =
      List.range' 1 (runLoop s es).scenes.length := by
  induction es generalizing s with
  | nil => exact h
  | cons e es ih => exact ih (generateStepRun s e) (generateStepRun_ids s e h)

theorem generateStepRun_stats (s : AppState) (e : BatchEnv)
    (h : s.stats.totalGenerated = s.scenes.length) :
    (generateStepRun s e).stats.totalGenerated =
      (generateStepRun s e).scenes.length := by
  rcases generateStepRun_cases s e with ⟨hs, ht, -⟩ | ⟨-, -, items, -, hs, ht, -⟩
  · rw [ht, hs]; exact h
  · rw [ht, hs, List.length_append, length_assignIds, h]

theorem runLoop_stats (s : AppState) (es : List BatchEnv)
    (h : s.stats.totalGenerated = s.scenes.length) :
    (runLoop s es).stats.totalGenerated = (runLoop s es).scenes.length := by
  induction es generalizing s with
  | nil => exact h
  | cons e es ih => exact ih (generateStepRun s e) (generateStepRun_stats s e h)

theorem map_id_of_preserve (f : SceneConcept → SceneConcept)
    (hf : ∀ sc, (f sc).id = sc.id) (scenes : List SceneConcept) :
    (scenes.map f).map SceneConcept.id = scenes.map SceneConcept.id := by
  rw [List.map_map]
  exact List.map_congr_left fun sc _ => hf sc

theorem length_generateCuratedBatch (rng : Nat → Nat) (startId count : Nat) :
    (generateCuratedBatch rng startId count).length = count := by
  simp [generateCuratedBatch]

theorem map_id_generateCuratedBatch (rng : Nat → Nat) (startId count : Nat) :
    (generateCuratedBatch rng startId count).map SceneConcept.id =
      List.range' startId count := by
  unfold generateCuratedBatch
  rw [List.map_map, List.range'_eq_map_range]
  exact List.map_congr_left fun i _ => rfl

theorem mem_generateCuratedBatch (rng : Nat → Nat) (startId count : Nat)
    (sc : SceneConcept) (h : sc ∈ generateCuratedBatch rng startId count) :
    sc.description ≠ "" ∧
    (sc.category = "General" ∨ ∃ loc, lookupCategory loc = some sc.category) ∧
    sc.thumbnailUrl = some (placeholderUrl sc.id) ∧
    sc.camera = "First-Person POV" := by
  unfold generateCuratedBatch at h
  obtain ⟨i, hi, rfl⟩ := List.mem_map.mp h
  dsimp only
  refine ⟨?_, ?_, rfl, rfl⟩
  · intro habs
    have h2 := congrArg String.length habs
    simp only [String.length_append] at h2
    have h9 : ("POV in a " : String).length = 9 := rfl
    have h0 : ("" : String).length = 0 := rfl
    omega
  · rcases hloc : lookupCategory (locations.getD (rng (5 * i + 1) % locations.length) "")
      with _ | c
    · left; simp [hloc]
    · right
      exact ⟨locations.getD (rng (5 * i + 1) % locations.length) "",
        by simpa using hloc⟩

theorem handleInstantLoad_scenes (rng : Nat → Nat) (now : Nat) (s : AppState) :
    (handleInstantLoad rng now s).scenes = generateCuratedBatch rng 1 TOTAL_GOAL := by
  simp [handleInstantLoad]

/-! Claim theorems. -/

/-- C1, counterexample: the loop is active on an empty collection with a
successful two-record batch in flight and Stop pressed during the
flight; the resolved batch is NOT appended and the batch counter is NOT
incremented, so the claim that the pending batch's results are still
applied is false. -/
theorem stop_during_flight_claim_false :
    ¬ ((generateStepRun activeEmptyState stopMidFlightEnv).scenes.length =
          activeEmptyState.scenes.length + 2 ∧
        (generateStepRun activeEmptyState stopMidFlightEnv).stats.batchesCompleted =
          activeEmptyState.stats.batchesCompleted + 1) := by
  decide

/-- C1 (amended): if Stop is called while a batch request is in flight,
the request's result — even a successful one — is discarded (the
collection and both batch counters are unchanged, per the
`!stopRef.current` check after the `await`), and no further batch is
requested afterward. -/
theorem stop_during_flight_discards (s : AppState) (e : BatchEnv)
    (hFlight : ((generateStepIssue s).2).isSome = true)
    (hStop : e.stopDuringFlight = true) :
    (generateStepRun s e).scenes = s.scenes ∧
    (generateStepRun s e).stats.totalGenerated = s.stats.totalGenerated ∧
    (generateStepRun s e).stats.batchesCompleted = s.stats.batchesCompleted ∧
    (generateStepIssue (generateStepRun s e)).2 = none := by
  rcases hiss : generateStepIssue s with ⟨s1, o⟩
  rcases o with _ | ⟨a, b⟩
  · rw [hiss] at hFlight; simp at hFlight
  · obtain ⟨hs1, ha, hb, hstop, hgen, hlen⟩ :=
      generateStepIssue_pair_some s s1 a b hiss
    have hrun : generateStepRun s e =
        generateStepResolve (handleStop s1)
          (generateSceneBatch e.hasApiKey a b e.response) := by
      simp [generateStepRun, hiss, hStop]
    rw [hrun, hs1]
    obtain ⟨h1, h2, h3, h4⟩ :=
      generateStepResolve_stopped (handleStop s) _ (handleStop_stopRef s)
    refine ⟨h1.trans (handleStop_scenes s), h2.trans rfl, h3.trans rfl,
      generateStepIssue_stopRef_none _ h4⟩

/-- C1 witness: the amended statement at the concrete counterexample
input. -/
theorem stop_during_flight_discards_witness :
    (generateStepRun activeEmptyState stopMidFlightEnv).scenes =
      activeEmptyState.scenes ∧
    (generateStepRun activeEmptyState stopMidFlightEnv).stats.totalGenerated =
      activeEmptyState.stats.totalGenerated ∧
    (generateStepRun activeEmptyState stopMidFlightEnv).stats.batchesCompleted =
      activeEmptyState.stats.batchesCompleted ∧
    (generateStepIssue (generateStepRun activeEmptyState stopMidFlightEnv)).2 =
      none :=
  stop_during_flight_discards activeEmptyState stopMidFlightEnv (by decide) rfl

/-- C2, counterexample: a single successful batch whose response carries
1001 parsed items (more than the 50 the step requested) is appended
without truncation, pushing the collection length past the 1000 goal. -/
theorem collection_bound_claim_false :
    TOTAL_GOAL < (generateStepRun activeEmptyState oversizedEnv).scenes.length := by
  have hrun : generateStepRun activeEmptyState oversizedEnv =
      generateStepResolve activeEmptyState
        (generateSceneBatch oversizedEnv.hasApiKey 1 50 oversizedEnv.response) := rfl
  have hbatch : generateSceneBatch oversizedEnv.hasApiKey 1 50 oversizedEnv.response =
      .ok (assignIds 1 (List.replicate 1001 sampleItem)) := rfl
  have hres : (generateStepResolve activeEmptyState
        (.ok (assignIds 1 (List.replicate 1001 sampleItem)))).scenes =
      activeEmptyState.scenes ++ assignIds 1 (List.replicate 1001 sampleItem) := by
    simp only [generateStepResolve]
    rw [if_pos (show (!activeEmptyState.stopRef) = true from rfl)]
  rw [hrun, hbatch, hres, List.length_append, length_assignIds,
    List.length_replicate]
  decide

/-- C2 (amended): each loop step requests `min(BATCH_SIZE, TOTAL_GOAL -
currentSize)` records; provided each completed batch returns at most the
number of records requested, the collection length never exceeds the 1000
goal; once the size is at least the goal no further batch is
requested. -/
theorem collection_length_bounded (s : AppState) (es : List BatchEnv)
    (hlen : s.scenes.length ≤ TOTAL_GOAL) (hok : runOk s es = true) :
    (runLoop s es).scenes.length ≤ TOTAL_GOAL ∧
    (∀ a b, (generateStepIssue s).2 = some (a, b) →
      b = min BATCH_SIZE (TOTAL_GOAL - s.scenes.length)) ∧
    (TOTAL_GOAL ≤ s.scenes.length → (generateStepIssue s).2 = none) :=
  ⟨runLoop_length_le s es hlen hok,
   fun a b h => (generateStepIssue_snd_some s a b h).2,
   generateStepIssue_goal_none s⟩

/-- C2 witness: the amended statement on a concrete two-step run. -/
theorem collection_length_bounded_witness :
    (runLoop activeEmptyState [stopMidFlightEnv]).scenes.length ≤ TOTAL_GOAL :=
  (collection_length_bounded activeEmptyState [stopMidFlightEnv]
    (by decide) (by decide)).1

/-- C3: in any run starting from an empty collection the record ids are
exactly `1..T` in order — strictly increasing, contiguous, no gaps or
duplicates (each batch numbers its i-th item `startId + i` with
`startId = currentSize + 1`); and after `stop()` followed by `start()` on
a non-empty collection the existing records are unchanged and the next
issued batch is numbered from `Collection.length + 1`. -/
theorem run_ids_contiguous (s : AppState) (es : List BatchEnv) (now : Nat) :
    (s.scenes = [] →
      (runLoop s es).scenes.map SceneConcept.id =
        List.range' 1 (runLoop s es).scenes.length) ∧
    (s.scenes ≠ [] →
      (handleStart true now (handleStop s)).scenes = s.scenes ∧
      ∀ a b,
        (generateStepIssue (handleStart true now (handleStop s))).2 = some (a, b) →
        a = s.scenes.length + 1) := by
  constructor
  · intro hempty
    exact runLoop_ids s es (by simp [hempty])
  · intro hne
    have hsc : (handleStart true now (handleStop s)).scenes = s.scenes := by
      simp [handleStart, handleStop]
    refine ⟨hsc, fun a b h => ?_⟩
    have ha := (generateStepIssue_snd_some _ a b h).1
    rw [hsc] at ha
    exact ha

/-- C3 witness: a concrete one-batch run from empty, and a concrete
stop/start resume on a non-empty collection. -/
theorem run_ids_contiguous_witness :
    ((runLoop activeEmptyState [stopMidFlightEnv]).scenes.map SceneConcept.id =
        List.range' 1 (runLoop activeEmptyState [stopMidFlightEnv]).scenes.length) ∧
    (handleStart true 0 (handleStop idleOutsideState)).scenes =
      idleOutsideState.scenes :=
  ⟨(run_ids_contiguous activeEmptyState [stopMidFlightEnv] 0).1 rfl,
   ((run_ids_contiguous idleOutsideState [] 0).2 (by decide)).1⟩

/-- C4, counterexample: a malformed (non-empty, unparseable) structured
response makes `generateSceneBatch` throw — it propagates a parse error
and does not return the empty list. -/
theorem malformed_response_claim_false :
    generateSceneBatch true 1 50 (.ok .malformed) = .error .parseError ∧
    generateSceneBatch true 1 50 (.ok .malformed) ≠ .ok [] := by
  exact ⟨rfl, by simp [generateSceneBatch]⟩

/-- C4 (amended): a missing/empty response text yields zero records (not
an error at the backend layer), while a malformed (unparseable) response
throws a parse error that propagates; in every successful case the
returned records are exactly the parsed schema items with positional ids
— no record is ever fabricated. -/
theorem generateSceneBatch_response_handling (startId count : Nat) :
    generateSceneBatch true startId count (.ok .noText) = .ok [] ∧
    generateSceneBatch true startId count (.ok .malformed) = .error .parseError ∧
    (∀ (hasApiKey : Bool) (resp : Except Unit BatchResponse)
        (l : List SceneConcept),
      generateSceneBatch hasApiKey startId count resp = .ok l →
      l = [] ∨ ∃ items, resp = .ok (.parsed items) ∧ l = assignIds startId items) := by
  refine ⟨rfl, rfl, fun hk resp l h => ?_⟩
  rcases hk
  · simp [generateSceneBatch] at h
  · rcases resp with u | br
    · simp [generateSceneBatch] at h
    · rcases br with _ | _ | items <;> simp [generateSceneBatch] at h
      · exact Or.inl h
      · exact Or.inr ⟨items, rfl, h.symm⟩

/-- C4 witness: the amended statement applied to a concrete successful
parsed response. -/
theorem generateSceneBatch_response_handling_witness :
    assignIds 1 [sampleItem] = [] ∨
      ∃ items,
        (Except.ok (BatchResponse.parsed [sampleItem]) :
            Except Unit BatchResponse) = .ok (.parsed items) ∧
        assignIds 1 [sampleItem] = assignIds 1 items :=
  (generateSceneBatch_response_handling 1 50).2.2 true
    (.ok (.parsed [sampleItem])) (assignIds 1 [sampleItem]) rfl

/-- C5, counterexample: `handleGenerateImage` called for a record whose
thumbnail is already pending still issues a second request — the handler
never consults the record's pending state, so the claimed no-op does not
exist at this layer. -/
theorem pending_thumbnail_claim_false :
    pendingScene.isGeneratingThumbnail = true ∧
    (handleGenerateImageIssue true pendingScene.id [pendingScene]).2 = true := by
  decide

/-- C5 (amended): a direct `handleGenerateImage` call issues a thumbnail
request whenever an API key is selected, regardless of the record's
pending state; only the bulk page loader of the part_001 variant
(`handleGeneratePageThumbnails`) excludes records whose thumbnail is
already pending from the requests it issues. -/
theorem thumbnail_request_guard (id : Nat) (scenes displayed : List SceneConcept) :
    (handleGenerateImageIssue true id scenes).2 = true ∧
    (∀ sc ∈ scenesToLoad displayed, sc.isGeneratingThumbnail = false) := by
  constructor
  · simp [handleGenerateImageIssue]
  · intro sc hsc
    have hmem := List.mem_filter.mp hsc
    have hp := hmem.2
    simp only [Bool.and_eq_true, Bool.not_eq_true'] at hp
    exact hp.2

/-- C5 witness: the amended statement at a pending record (a request is
still issued) and at a placeholder record selected by the bulk loader. -/
theorem thumbnail_request_guard_witness :
    (handleGenerateImageIssue true 1 [pendingScene]).2 = true ∧
    curatedSample.isGeneratingThumbnail = false :=
  ⟨(thumbnail_request_guard 1 [pendingScene] [curatedSample]).1,
   (thumbnail_request_guard 1 [pendingScene] [curatedSample]).2 curatedSample
     (by decide)⟩

/-- C6: starting a run on an empty collection resets the counters, and
after any number of completed batches the `totalGenerated` counter always
equals the collection's length. -/
theorem totalGenerated_eq_length (s : AppState) (es : List BatchEnv) (now : Nat)
    (hempty : s.scenes = []) :
    (runLoop (handleStart true now s) es).stats.totalGenerated =
      (runLoop (handleStart true now s) es).scenes.length := by
  apply runLoop_stats
  simp [handleStart, hempty]

/-- C6 witness: a concrete one-batch run from empty. -/
theorem totalGenerated_eq_length_witness :
    (runLoop (handleStart true 0 activeEmptyState) [stopMidFlightEnv]).stats.totalGenerated =
      (runLoop (handleStart true 0 activeEmptyState) [stopMidFlightEnv]).scenes.length :=
  totalGenerated_eq_length activeEmptyState [stopMidFlightEnv] 0 rfl

/-- C7, counterexample: Instant Load removes records — a record with id
2000 present before `handleInstantLoad` is absent afterwards, the
collection having been replaced by 1000 fresh curated records with ids
1..1000. -/
theorem instant_load_claim_false :
    outsideScene ∈ idleOutsideState.scenes ∧
    outsideScene ∉ (handleInstantLoad (fun _ => 0) 0 idleOutsideState).scenes := by
  constructor
  · exact List.mem_singleton.mpr rfl
  · intro habs
    have hid : outsideScene.id ∈
        ((handleInstantLoad (fun _ => 0) 0 idleOutsideState).scenes.map
          SceneConcept.id) :=
      List.mem_map_of_mem SceneConcept.id habs
    rw [handleInstantLoad_scenes, map_id_generateCuratedBatch] at hid
    rw [List.mem_range'_1] at hid
    revert hid
    decide

/-- C7 (amended): generation steps only append; stop, start, favorite
toggles and thumbnail status/URL updates never remove a record (the id at
every position is preserved — records are replaced in place with only the
flagged fields changed); Instant Load is the exception: it replaces the
entire collection with a fresh curated set of `TOTAL_GOAL` records
numbered 1..1000. -/
theorem operations_never_remove (s : AppState) (e : BatchEnv) (id now : Nat)
    (rng : Nat → Nat) (hk : Bool) (res : Except Unit (Option String))
    (scenes : List SceneConcept) :
    (∃ t, (generateStepRun s e).scenes = s.scenes ++ t) ∧
    (handleStop s).scenes = s.scenes ∧
    (handleStart hk now s).scenes = s.scenes ∧
    (handleToggleFavorite id scenes).map SceneConcept.id =
      scenes.map SceneConcept.id ∧
    ((handleGenerateImageIssue hk id scenes).1).map SceneConcept.id =
      scenes.map SceneConcept.id ∧
    (handleGenerateImageResolve id res scenes).map SceneConcept.id =
      scenes.map SceneConcept.id ∧
    (handleInstantLoad rng now s).scenes.map SceneConcept.id =
      List.range' 1 TOTAL_GOAL := by
  refine ⟨generateStepRun_scenes_append s e, rfl, ?_, ?_, ?_, ?_,
    (handleInstantLoad_scenes rng now s).symm ▸ map_id_generateCuratedBatch rng 1 TOTAL_GOAL⟩
  · rcases hk <;> simp [handleStart]
  · exact map_id_of_preserve _ (fun sc => by split_ifs <;> rfl) scenes
  · rcases hk
    · rfl
    · exact map_id_of_preserve _ (fun sc => by split_ifs <;> rfl) scenes
  · rcases res with u | o
    · exact map_id_of_preserve _ (fun sc => by split_ifs <;> rfl) scenes
    · rcases o with _ | url <;>
        exact map_id_of_preserve _ (fun sc => by split_ifs <;> rfl) scenes

/-- C8: the local/procedural generator returns exactly `count` records
with ids `startId..startId+count-1` in order, each with a non-empty
templated description, a category equal to a location→category table
value (or the fallback `"General"` for an unmapped location), the
constant camera label, and a placeholder thumbnail URL that is a
deterministic function of the record's own id; as a total pure Lean
function it never fails and has no suspension points. -/
theorem generateCuratedBatch_spec (rng : Nat → Nat) (startId count : Nat) :
    (generateCuratedBatch rng startId count).length = count ∧
    (generateCuratedBatch rng startId count).map SceneConcept.id =
      List.range' startId count ∧
    ∀ sc ∈ generateCuratedBatch rng startId count,
      sc.description ≠ "" ∧
      (sc.category = "General" ∨ ∃ loc, lookupCategory loc = some sc.category) ∧
      sc.thumbnailUrl = some (placeholderUrl sc.id) ∧
      sc.camera = "First-Person POV" :=
  ⟨length_generateCuratedBatch rng startId count,
   map_id_generateCuratedBatch rng startId count,
   fun sc h => mem_generateCuratedBatch rng startId count sc h⟩

/-- C8 witness: a concrete one-record curated batch. -/
theorem generateCuratedBatch_spec_witness :
    (generateCuratedBatch (fun _ => 0) 1 1).length = 1 ∧
    curatedSample.description ≠ "" ∧
    curatedSample.thumbnailUrl = some (placeholderUrl curatedSample.id) :=
  ⟨(generateCuratedBatch_spec (fun _ => 0) 1 1).1,
   ((generateCuratedBatch_spec (fun _ => 0) 1 1).2.2 curatedSample (by decide)).1,
   ((generateCuratedBatch_spec (fun _ => 0) 1 1).2.2 curatedSample
     (by decide)).2.2.1⟩

/-- C9: with page size 10 and a filtered collection of length `L`, the
page count is the least number of pages covering all `L` items (i.e.
`ceil(L/10)`); every page before the last shows exactly 10 records; the
last page shows `L mod 10` records (or 10 when 10 divides `L`); and page
`p ≥ 1` displays the slice of the filtered collection from index
`(p-1)*10` to `p*10`. -/
theorem pagination_spec (filtered : List SceneConcept) (p : Nat) :
    (filtered.length ≤ totalPages filtered.length * ITEMS_PER_PAGE ∧
      totalPages filtered.length * ITEMS_PER_PAGE <
        filtered.length + ITEMS_PER_PAGE) ∧
    (1 ≤ p → p < totalPages filtered.length →
      (displayedScenes filtered p).length = ITEMS_PER_PAGE) ∧
    (p = totalPages filtered.length → 0 < filtered.length →
      (displayedScenes filtered p).length =
        if filtered.length % ITEMS_PER_PAGE = 0 then ITEMS_PER_PAGE
        else filtered.length % ITEMS_PER_PAGE) ∧
    (1 ≤ p → displayedScenes filtered p =
      (filtered.drop ((p - 1) * ITEMS_PER_PAGE)).take ITEMS_PER_PAGE) := by
  have hslice : ∀ q : Nat, (displayedScenes filtered q).length =
      min (q * ITEMS_PER_PAGE - (q - 1) * ITEMS_PER_PAGE)
        (filtered.length - (q - 1) * ITEMS_PER_PAGE) := by
    intro q
    simp [displayedScenes, sliceJs, List.length_take, List.length_drop]
  refine ⟨⟨?_, ?_⟩, ?_, ?_, ?_⟩
  · simp only [totalPages, ITEMS_PER_PAGE]
    omega
  · simp only [totalPages, ITEMS_PER_PAGE]
    omega
  · intro hp1 hp2
    rw [hslice p]
    simp only [totalPages, ITEMS_PER_PAGE] at hp2 ⊢
    omega
  · intro hp hL
    rw [hslice p]
    subst hp
    simp only [totalPages, ITEMS_PER_PAGE] at hL ⊢
    split_ifs <;> omega
  · intro hp
    unfold displayedScenes sliceJs
    have : p * ITEMS_PER_PAGE - (p - 1) * ITEMS_PER_PAGE = ITEMS_PER_PAGE := by
      simp only [ITEMS_PER_PAGE]
      omega
    rw [this]

/-- C9 witness: a 20-record collection has full first page; a 10-record
collection's last page shows all 10. -/
theorem pagination_spec_witness :
    (displayedScenes (favSample ++ favSample) 1).length = ITEMS_PER_PAGE ∧
    (displayedScenes favSample 1).length =
      (if favSample.length % ITEMS_PER_PAGE = 0 then ITEMS_PER_PAGE
        else favSample.length % ITEMS_PER_PAGE) :=
  ⟨(pagination_spec (favSample ++ favSample) 1).2.1 (by decide) (by decide),
   (pagination_spec favSample 1).2.2.1 (by decide) (by decide)⟩

/-- C10: toggling the favorite of record id `k` flips exactly the
`isFavorite` field of the record(s) with that id, leaving every other
record and every other field unchanged and preserving positions; the
favorites view is exactly the favorited records in original order, so its
length equals their count. -/
theorem toggleFavorite_spec (scenes : List SceneConcept) (k i : Nat) :
    (handleToggleFavorite k scenes).length = scenes.length ∧
    (∀ sc, scenes[i]? = some sc → sc.id ≠ k →
      (handleToggleFavorite k scenes)[i]? = some sc) ∧
    (∀ sc, scenes[i]? = some sc → sc.id = k →
      (handleToggleFavorite k scenes)[i]? =
        some { sc with isFavorite := !sc.isFavorite }) ∧
    filteredScenes true scenes = scenes.filter (·.isFavorite) ∧
    (filteredScenes true scenes).length = scenes.countP (·.isFavorite) := by
  refine ⟨by simp [handleToggleFavorite], ?_, ?_, rfl, ?_⟩
  · intro sc hsc hne
    simp [handleToggleFavorite, List.getElem?_map, hsc, hne]
  · intro sc hsc heq
    simp [handleToggleFavorite, List.getElem?_map, hsc, heq]
  · simp [filteredScenes, List.countP_eq_length_filter]

/-- C10 witness: toggling id 5 in the ten-record sample leaves the first
record untouched and flips exactly the favorite bit of the fifth. -/
theorem toggleFavorite_spec_witness :
    (handleToggleFavorite 5 favSample).length = favSample.length ∧
    (handleToggleFavorite 5 favSample)[0]? = some favSampleHead ∧
    (handleToggleFavorite 5 favSample)[4]? =
      some { favSampleFive with isFavorite := !favSampleFive.isFavorite } :=
  ⟨(toggleFavorite_spec favSample 5 0).1,
   (toggleFavorite_spec favSample 5 0).2.1 favSampleHead (by decide) (by decide),
   (toggleFavorite_spec favSample 5 4).2.2.1 favSampleFive (by decide) (by decide)⟩

end PovNexus
